import Mathlib

/-!
Formal model of the backend abstraction and session layer of the
tenant-community mobile client.

The definitions below are a shallow embedding of the TypeScript sources:

* `CustomAuthService.*`   — src/services/backend (custom backend), class
  CustomAuthService: the in-memory token store and the methods verifyOTP,
  refreshToken, logout.  Each network call is modelled by passing the
  outcome the awaited HTTP post settles to as an explicit argument; the
  method body then only transforms that outcome and the store, exactly as
  the source does.
* `CustomDatabaseService.getById` / `FirestoreService.getById` — the two
  backend kinds of IDatabaseService.getById.
* `interceptResponseError` — the response interceptor installed by
  CustomBackendService.createApiClient: the 401 refresh-and-retry path,
  including the retry marker set on the request config, the token-store
  update performed through CustomAuthService.refreshToken, the
  logout-and-reject path when refresh fails, and the count of refresh
  network calls it issues.
* `runConc` — an interleaving model of two requests that both sit at the
  401 branch of that interceptor: each request reads the stored refresh
  token (one suspension point) and then performs its own refresh network
  call (second suspension point).  The source keeps no shared
  refresh-in-flight state, which is exactly what this model reflects; a
  schedule is an arbitrary interleaving of the two requests.
* `WebSocketService.*` — the socket.io based realtime service: the
  callbacks map (a JS Map: insertion order, replace-on-set), the socket
  with its accumulated per-event listeners, connect, disconnect,
  subscribe, unsubscribe, send, and message delivery.  Delivery reflects
  socket.io semantics: the catch-all handler installed by connect (which
  dispatches through the callbacks map) fires, and every per-event
  listener registered through socket.on fires as well.  Callbacks are
  identified by numeric ids so that the list of invoked callbacks is
  observable.
* `getBackendService` / `resetBackendService` — the backend facade
  singleton factory, with the module-level instance passed explicitly.
* `maskPhone` and the log-context lists — AuthService (modules/auth):
  the phone masking helper and the log contexts requestOTP and verifyOTP
  hand to the logger.  JS strings are modelled as lists of characters.
-/

/-- HTTP-level failure: optional response status (none models a network
error that produced no response) plus a message. -/
structure HttpError where
  status : Option Nat
  message : String
deriving DecidableEq

/-- Token pair returned by POST /auth/refresh. -/
structure TokenPair where
  accessToken : String
  refreshToken : String
deriving DecidableEq

/-- User record inside an AuthResult. -/
structure AuthUser where
  id : String
deriving DecidableEq

/-- Payload returned by POST /auth/otp/verify. -/
structure AuthResult where
  accessToken : String
  refreshToken : String
  user : AuthUser
deriving DecidableEq

/-- In-memory token store of CustomAuthService: the fields accessToken and
refreshTokenValue, both null before login. -/
structure TokenStore where
  accessToken : Option String
  refreshTokenValue : Option String
deriving DecidableEq

/-- CustomAuthService.verifyOTP: awaits the post to /auth/otp/verify (its
outcome is the first argument); on success assigns both token fields from
the response data and returns it, on failure the thrown error propagates
and the store is untouched. -/
def CustomAuthService.verifyOTP (resp : Except HttpError AuthResult) (s : TokenStore) :
    Except HttpError AuthResult × TokenStore :=
  match resp with
  | .error e => (.error e, s)
  | .ok r =>
      (.ok r, { accessToken := some r.accessToken, refreshTokenValue := some r.refreshToken })

/-- CustomAuthService.refreshToken: awaits the post to /auth/refresh; on
success assigns both token fields from the response data and returns the
pair, on failure the thrown error propagates and the store is untouched. -/
def CustomAuthService.refreshToken (resp : Except HttpError TokenPair) (s : TokenStore) :
    Except HttpError TokenPair × TokenStore :=
  match resp with
  | .error e => (.error e, s)
  | .ok p =>
      (.ok p, { accessToken := some p.accessToken, refreshTokenValue := some p.refreshToken })

/-- CustomAuthService.logout: posts /auth/logout and, in a finally block,
nulls both token fields — the store ends cleared whether or not the post
succeeded. -/
def CustomAuthService.logout (_s : TokenStore) : TokenStore :=
  { accessToken := none, refreshTokenValue := none }

/-- CustomDatabaseService.getById: awaits the GET; on success returns the
data, on failure returns null when the response status is 404 and rethrows
the error otherwise. -/
def CustomDatabaseService.getById (resp : Except HttpError String) :
    Except HttpError (Option String) :=
  match resp with
  | .ok d => .ok (some d)
  | .error e => if e.status = some 404 then .ok none else .error e

/-- FirestoreService.getById (firebase backend kind): the body is a stub
that throws unconditionally. -/
def FirestoreService.getById (collection id : String) : Except String (Option String) :=
  .error "Firestore getById not implemented"

/-- Axios request config as the interceptor sees it: the retry marker the
interceptor stores on the config, and the Authorization header. -/
structure RequestConfig where
  retryFlag : Bool
  authHeader : Option String
deriving DecidableEq

/-- Observable outcome of one run of the response interceptor on a failed
request: the value the returned promise settles to, the token store
afterwards, how many refresh network calls were issued, and the config of
the re-issued request when one was re-issued. -/
structure InterceptOutcome where
  result : Except HttpError String
  store : TokenStore
  refreshCalls : Nat
  retriedWith : Option RequestConfig

/-- Response interceptor of CustomBackendService.createApiClient, error
branch.  Arguments: the failed request config, the error, the token
store, the outcome the refresh post would settle to if issued, and the
outcome of re-issuing a request config.  If the status is 401 and the
config is not yet marked retried: mark it retried; if a refresh token is
stored, call CustomAuthService.refreshToken (one refresh network call) —
on success set the Authorization header to the new access token and
re-issue the request, on failure run logout (clearing the store) and
reject with the refresh error; if no refresh token is stored, or the
status is not 401, or the config was already marked, reject with the
original error. -/
def interceptResponseError (cfg : RequestConfig) (err : HttpError) (st : TokenStore)
    (refreshResp : Except HttpError TokenPair)
    (retryResp : RequestConfig → Except HttpError String) : InterceptOutcome :=
  if err.status = some 401 ∧ cfg.retryFlag = false then
    let cfg1 : RequestConfig := { cfg with retryFlag := true }
    match st.refreshTokenValue with
    | some _ =>
        match CustomAuthService.refreshToken refreshResp st with
        | (.ok pair, st1) =>
            let cfg2 : RequestConfig :=
              { cfg1 with authHeader := some ("Bearer " ++ pair.accessToken) }
            { result := retryResp cfg2, store := st1, refreshCalls := 1,
              retriedWith := some cfg2 }
        | (.error e, _) =>
            { result := .error e, store := CustomAuthService.logout st, refreshCalls := 1,
              retriedWith := none }
    | none =>
        { result := .error err, store := st, refreshCalls := 0, retriedWith := none }
  else
    { result := .error err, store := st, refreshCalls := 0, retriedWith := none }

/-- Program counter of one request sitting at the 401 branch of the
interceptor: it has yet to read the stored refresh token, or it has read
it (carrying the value it saw), or it has completed its refresh-and-retry
handling. -/
inductive ReqPhase where
  | start : ReqPhase
  | gotToken : Option String → ReqPhase
  | finished : ReqPhase
deriving DecidableEq

/-- Shared state of two interceptor runs racing through the 401 branch:
the program counter of each request, the shared token store, and the
total number of refresh network calls issued so far. -/
structure ConcState where
  pc0 : ReqPhase
  pc1 : ReqPhase
  store : TokenStore
  refreshCalls : Nat
deriving DecidableEq

/-- One cooperative step of a single request inside the 401 branch.  At
start it reads the stored refresh token (the await on getRefreshToken).
Holding a token, it performs its own refresh network call — nothing in
the source records a refresh as in flight, so it cannot wait on another
request — and the call succeeds with the pair the server hands out for
that call, which is written to the store.  Holding no token it completes
without refreshing. -/
def stepRequest (server : Nat → TokenPair) (pc : ReqPhase) (st : TokenStore) (calls : Nat) :
    ReqPhase × TokenStore × Nat :=
  match pc with
  | .start => (.gotToken st.refreshTokenValue, st, calls)
  | .gotToken (some _) =>
      let p := server calls
      (.finished,
       { accessToken := some p.accessToken, refreshTokenValue := some p.refreshToken },
       calls + 1)
  | .gotToken none => (.finished, st, calls)
  | .finished => (.finished, st, calls)

/-- Scheduler step: advance request 1 when the flag is true, request 0
otherwise. -/
def stepConc (server : Nat → TokenPair) (s : ConcState) (which : Bool) : ConcState :=
  if which then
    let r := stepRequest server s.pc1 s.store s.refreshCalls
    { s with pc1 := r.1, store := r.2.1, refreshCalls := r.2.2 }
  else
    let r := stepRequest server s.pc0 s.store s.refreshCalls
    { s with pc0 := r.1, store := r.2.1, refreshCalls := r.2.2 }

/-- Run an arbitrary interleaving of the two requests. -/
def runConc (server : Nat → TokenPair) (s : ConcState) : List Bool → ConcState
  | [] => s
  | b :: bs => runConc server (stepConc server s b) bs

/-- Contribution of one request to the count of completed requests. -/
def phaseDone (pc : ReqPhase) : Nat :=
  if pc = ReqPhase.finished then 1 else 0

/-- Invariant of the interleaving model when a refresh token is stored at
the outset and every refresh succeeds: the store always holds a refresh
token, a request that has read the token read a present one, and the
number of refresh calls issued equals the number of completed requests. -/
def concInv (s : ConcState) : Prop :=
  s.store.refreshTokenValue.isSome = true ∧
  (∀ rt, s.pc0 = ReqPhase.gotToken rt → rt.isSome = true) ∧
  (∀ rt, s.pc1 = ReqPhase.gotToken rt → rt.isSome = true) ∧
  s.refreshCalls = phaseDone s.pc0 + phaseDone s.pc1

/-- Identifier of a registered message callback, so that deliveries are
observable. -/
abbrev CallbackId := Nat

/-- JS Map.set on an association list: replace in place when the key is
present, append otherwise (insertion order preserved). -/
def mapSet (m : List (String × CallbackId)) (k : String) (v : CallbackId) :
    List (String × CallbackId) :=
  if m.any (fun kv => kv.1 == k) then
    m.map (fun kv => if kv.1 == k then (k, v) else kv)
  else m ++ [(k, v)]

/-- JS Map.get on an association list. -/
def mapGet (m : List (String × CallbackId)) (k : String) : Option CallbackId :=
  (m.find? (fun kv => kv.1 == k)).map (fun kv => kv.2)

/-- JS Map.delete on an association list. -/
def mapDelete (m : List (String × CallbackId)) (k : String) :
    List (String × CallbackId) :=
  m.filter (fun kv => !(kv.1 == k))

/-- Socket handle: connection flag and the per-event listeners accumulated
through socket.on, in registration order. -/
structure SocketState where
  connected : Bool
  listeners : List (String × CallbackId)
deriving DecidableEq

/-- State of WebSocketService: the socket (null until connect) and the
callbacks map. -/
structure WSState where
  socket : Option SocketState
  callbacks : List (String × CallbackId)
deriving DecidableEq

/-- WebSocketService.connect, success path: a fresh socket is created and
stored, with the connect handlers and the catch-all dispatch installed;
no per-event listeners are registered and the callbacks map is not
touched. -/
def WebSocketService.connect (s : WSState) : WSState :=
  { s with socket := some { connected := true, listeners := [] } }

/-- WebSocketService.disconnect: when a socket exists, disconnect it, null
the field and clear the callbacks map; otherwise do nothing. -/
def WebSocketService.disconnect (s : WSState) : WSState :=
  match s.socket with
  | some _ => { socket := none, callbacks := [] }
  | none => s

/-- WebSocketService.subscribe: set the callback in the map and, when a
socket exists, additionally register it as a per-event listener through
socket.on (which appends, never replaces). -/
def WebSocketService.subscribe (s : WSState) (channel : String) (cb : CallbackId) : WSState :=
  { callbacks := mapSet s.callbacks channel cb,
    socket :=
      match s.socket with
      | some sock => some { sock with listeners := sock.listeners ++ [(channel, cb)] }
      | none => none }

/-- WebSocketService.unsubscribe: delete the map entry and, when a socket
exists, remove every per-event listener of the channel (socket.off). -/
def WebSocketService.unsubscribe (s : WSState) (channel : String) : WSState :=
  { callbacks := mapDelete s.callbacks channel,
    socket :=
      match s.socket with
      | some sock =>
          some { sock with listeners := sock.listeners.filter (fun kv => !(kv.1 == channel)) }
      | none => none }

/-- Delivery of one incoming message on an event: with no socket nothing
is delivered; with a socket, the catch-all handler installed by connect
dispatches through the callbacks map, and then every per-event listener
registered for the event fires as well.  The result lists the invoked
callback ids in invocation order. -/
def WebSocketService.deliver (s : WSState) (event : String) : List CallbackId :=
  match s.socket with
  | none => []
  | some sock =>
      (match mapGet s.callbacks event with
       | some cb => [cb]
       | none => []) ++
      (sock.listeners.filter (fun kv => kv.1 == event)).map (fun kv => kv.2)

/-- Failure of WebSocketService.send: the immediate error thrown when no
socket exists, or the error the acknowledgment callback reports. -/
inductive SendError where
  | notConnected : SendError
  | serverError : String → SendError
deriving DecidableEq

/-- WebSocketService.send: with no socket it throws immediately — before
any network activity; with a socket it emits once and settles according
to the acknowledgment.  The final component counts transport calls
(emits) performed. -/
def WebSocketService.send (s : WSState) (channel : String) (ackError : Option String) :
    Except SendError Unit × WSState × Nat :=
  match s.socket with
  | none => (.error SendError.notConnected, s, 0)
  | some _ =>
      match ackError with
      | some m => (.error (SendError.serverError m), s, 1)
      | none => (.ok (), s, 1)

/-- Firebase connection parameters. -/
structure FirebaseConfig where
  apiKey : String
  projectId : String
deriving DecidableEq

/-- Application configuration consumed by the factory. -/
structure AppConfig where
  backendType : String
  firebase : Option FirebaseConfig
  apiBaseUrl : String
  wsUrl : String
deriving DecidableEq

/-- Constructed backend service instance. -/
inductive BackendInstance where
  | custom : String → String → BackendInstance
  | firebase : FirebaseConfig → BackendInstance
deriving DecidableEq

/-- getBackendService: returns the module-level singleton when present;
otherwise, for the firebase backend kind it throws when the firebase
configuration is absent and constructs a FirebaseBackendService when
present, and for any other kind constructs a CustomBackendService from
the base URL and socket URL.  The second component is the module-level
instance variable afterwards. -/
def getBackendService (config : AppConfig) (instanceState : Option BackendInstance) :
    Except String BackendInstance × Option BackendInstance :=
  match instanceState with
  | some b => (.ok b, some b)
  | none =>
      if config.backendType == "firebase" then
        match config.firebase with
        | none => (.error "Firebase configuration is missing", none)
        | some f => (.ok (BackendInstance.firebase f), some (BackendInstance.firebase f))
      else
        (.ok (BackendInstance.custom config.apiBaseUrl config.wsUrl),
         some (BackendInstance.custom config.apiBaseUrl config.wsUrl))

/-- resetBackendService: nulls the singleton. -/
def resetBackendService (_s : Option BackendInstance) : Option BackendInstance :=
  none

/-- AuthService.maskPhone, with the JS string as its character sequence:
up to 4 characters the result is four asterisks, otherwise the first two
characters, four asterisks, and the last two characters. -/
def maskPhone (phone : List Char) : List Char :=
  if phone.length ≤ 4 then ['*', '*', '*', '*']
  else phone.take 2 ++ ['*', '*', '*', '*'] ++ phone.drop (phone.length - 2)

/-- Structured log context handed to the logger: the phone field, when the
call site passes one, and the userId field. -/
structure LogContext where
  phoneField : Option (List Char)
  userIdField : Option String
deriving DecidableEq

/-- Log contexts emitted by AuthService.requestOTP, in order: the attempt
entry carries the masked phone; on failure the error entry carries the
masked phone again, on success the confirmation entry carries no
context fields. -/
def requestOTPLogContexts (phone : List Char) (requestFails : Bool) : List LogContext :=
  { phoneField := some (maskPhone phone), userIdField := none } ::
  (if requestFails then [{ phoneField := some (maskPhone phone), userIdField := none }]
   else [{ phoneField := none, userIdField := none }])

/-- Log contexts emitted by AuthService.verifyOTP, in order: the attempt
entry carries the masked phone; on failure the error entry carries the
masked phone again, on success the confirmation entry carries only the
user id. -/
def verifyOTPLogContexts (phone : List Char) (verifyFails : Bool) (userId : String) :
    List LogContext :=
  { phoneField := some (maskPhone phone), userIdField := none } ::
  (if verifyFails then [{ phoneField := some (maskPhone phone), userIdField := none }]
   else [{ phoneField := none, userIdField := some userId }])

-- ===========================================================================
-- Helper lemmas
-- ===========================================================================

-- Looking up a key in the in-place-replace branch of Map.set finds the new value.
theorem mapGet_map_replace (k : String) (v : CallbackId) :
    ∀ m : List (String × CallbackId), m.any (fun kv => kv.1 == k) = true →
      mapGet (m.map (fun kv => if kv.1 == k then (k, v) else kv)) k = some v := by
  intro m
  induction m with
  | nil => intro h; simp at h
  | cons hd t ih =>
      intro h
      by_cases hh : hd.1 = k
      · have hcond : (hd.1 == k) = true := by simp [hh]
        unfold mapGet
        rw [List.map_cons, if_pos hcond, List.find?_cons_of_pos _ (by simp)]
        rfl
      · have hpf : (hd.1 == k) = false := by simp [hh]
        have ht : t.any (fun kv => kv.1 == k) = true := by
          simp only [List.any_cons, hpf, Bool.false_or] at h
          exact h
        unfold mapGet
        rw [List.map_cons, if_neg (by simp [hpf]), List.find?_cons_of_neg _ (by simp [hpf])]
        exact ih ht

-- Looking up a key in the append branch of Map.set finds the new value.
theorem mapGet_append_new (k : String) (v : CallbackId) :
    ∀ m : List (String × CallbackId), m.any (fun kv => kv.1 == k) = false →
      mapGet (m ++ [(k, v)]) k = some v := by
  intro m
  induction m with
  | nil =>
      intro h
      unfold mapGet
      rw [List.nil_append, List.find?_cons_of_pos _ (by simp)]
      rfl
  | cons hd t ih =>
      intro h
      simp only [List.any_cons, Bool.or_eq_false_iff] at h
      unfold mapGet
      rw [List.cons_append, List.find?_cons_of_neg _ (by simp [h.1])]
      exact ih h.2

-- Map.set followed by Map.get of the same key yields the value just set.
theorem mapGet_mapSet_self (m : List (String × CallbackId)) (k : String) (v : CallbackId) :
    mapGet (mapSet m k v) k = some v := by
  unfold mapSet
  by_cases hany : m.any (fun kv => kv.1 == k) = true
  · simpa [hany] using mapGet_map_replace k v m hany
  · have hf : m.any (fun kv => kv.1 == k) = false := by
      cases hx : m.any (fun kv => kv.1 == k)
      · rfl
      · exact absurd hx hany
    simpa [hf] using mapGet_append_new k v m hf

-- One cooperative step of a single request preserves the per-request part of
-- the invariant and advances the refresh-call count exactly when the request
-- completes.
theorem stepRequest_preserves (server : Nat → TokenPair) (pc : ReqPhase) (st : TokenStore)
    (calls : Nat) (hst : st.refreshTokenValue.isSome = true)
    (hpc : ∀ rt, pc = ReqPhase.gotToken rt → rt.isSome = true) :
    (stepRequest server pc st calls).2.1.refreshTokenValue.isSome = true ∧
    (∀ rt, (stepRequest server pc st calls).1 = ReqPhase.gotToken rt → rt.isSome = true) ∧
    (stepRequest server pc st calls).2.2 + phaseDone pc =
      calls + phaseDone (stepRequest server pc st calls).1 := by
  cases pc with
  | start =>
      refine ⟨hst, ?_, by simp [stepRequest, phaseDone]⟩
      intro rt hrt
      injection hrt with he
      exact he ▸ hst
  | gotToken rt =>
      cases rt with
      | some tok =>
          refine ⟨rfl, ?_, by simp [stepRequest, phaseDone]⟩
          intro rt2 hrt2
          exact ReqPhase.noConfusion hrt2
      | none => exact absurd (hpc none rfl) (by simp)
  | finished =>
      refine ⟨hst, ?_, by simp [stepRequest, phaseDone]⟩
      intro rt2 hrt2
      exact ReqPhase.noConfusion hrt2

-- A scheduler step preserves the invariant.
theorem concInv_step (server : Nat → TokenPair) (s : ConcState) (b : Bool)
    (h : concInv s) : concInv (stepConc server s b) := by
  obtain ⟨hstore, h0, h1, hcount⟩ := h
  cases b with
  | false =>
      obtain ⟨ha, hb, hc⟩ := stepRequest_preserves server s.pc0 s.store s.refreshCalls hstore h0
      exact ⟨ha, hb, h1, by
        show (stepRequest server s.pc0 s.store s.refreshCalls).2.2 =
          phaseDone (stepRequest server s.pc0 s.store s.refreshCalls).1 + phaseDone s.pc1
        omega⟩
  | true =>
      obtain ⟨ha, hb, hc⟩ := stepRequest_preserves server s.pc1 s.store s.refreshCalls hstore h1
      exact ⟨ha, h0, hb, by
        show (stepRequest server s.pc1 s.store s.refreshCalls).2.2 =
          phaseDone s.pc0 + phaseDone (stepRequest server s.pc1 s.store s.refreshCalls).1
        omega⟩

-- Every interleaving preserves the invariant.
theorem concInv_run (server : Nat → TokenPair) :
    ∀ (sched : List Bool) (s : ConcState), concInv s → concInv (runConc server s sched) := by
  intro sched
  induction sched with
  | nil => intro s h; exact h
  | cons b bs ih => intro s h; exact ih _ (concInv_step server s b h)

-- ===========================================================================
-- Claim theorems
-- ===========================================================================

/-- C1: two requests that both receive a 401 while a refresh token is stored
and no refresh is in flight each issue their own refresh network call: under
every interleaving in which both requests complete the 401 branch, the total
number of refresh calls is 2 — not the single de-duplicated call the spec
requires.  The source keeps no shared in-flight-refresh state, so no
interleaving can collapse the two calls. -/
theorem C1_concurrent_401s_trigger_two_refresh_calls (server : Nat → TokenPair)
    (st : TokenStore) (hst : st.refreshTokenValue.isSome = true) (sched : List Bool)
    (h0 : (runConc server ⟨ReqPhase.start, ReqPhase.start, st, 0⟩ sched).pc0 =
      ReqPhase.finished)
    (h1 : (runConc server ⟨ReqPhase.start, ReqPhase.start, st, 0⟩ sched).pc1 =
      ReqPhase.finished) :
    (runConc server ⟨ReqPhase.start, ReqPhase.start, st, 0⟩ sched).refreshCalls = 2 := by
  have hinv : concInv (runConc server ⟨ReqPhase.start, ReqPhase.start, st, 0⟩ sched) :=
    concInv_run server sched _
      ⟨hst, fun rt hrt => ReqPhase.noConfusion hrt,
        fun rt hrt => ReqPhase.noConfusion hrt, rfl⟩
  have hcount := hinv.2.2.2
  rw [h0, h1] at hcount
  simpa [phaseDone] using hcount

/-- C1 witness: a concrete interleaving of the two requests (request 0 runs
fully, then request 1) with a stored refresh token and a succeeding refresh
server completes both requests and issues 2 refresh calls. -/
theorem C1_concurrent_401s_trigger_two_refresh_calls_witness :
    (runConc (fun _ => { accessToken := "A1", refreshToken := "R1" })
      ⟨ReqPhase.start, ReqPhase.start,
        { accessToken := some "A0", refreshTokenValue := some "R0" }, 0⟩
      [false, false, true, true]).refreshCalls = 2 :=
  C1_concurrent_401s_trigger_two_refresh_calls
    (fun _ => { accessToken := "A1", refreshToken := "R1" })
    { accessToken := some "A0", refreshTokenValue := some "R0" } rfl
    [false, false, true, true] (by decide) (by decide)

/-- C2 counterexample: subscribe to chat-1 and chat-2 while connected, then
disconnect and reconnect; a message arriving on chat-2 is delivered to no
callback (the subscription registry was cleared by disconnect and connect
replays nothing), refuting the claim that previously subscribed callbacks
are still registered and reached after reconnect. -/
theorem C2_reconnect_loses_prior_subscriptions :
    mapGet (WebSocketService.connect
      (WebSocketService.disconnect
        (WebSocketService.subscribe
          (WebSocketService.subscribe (WebSocketService.connect ⟨none, []⟩) "chat-1" 1)
          "chat-2" 2))).callbacks "chat-2" = none ∧
    WebSocketService.deliver
      (WebSocketService.connect
        (WebSocketService.disconnect
          (WebSocketService.subscribe
            (WebSocketService.subscribe (WebSocketService.connect ⟨none, []⟩) "chat-1" 1)
            "chat-2" 2)))
      "chat-2" = [] := by decide

/-- C2 amended: disconnect clears all subscriptions, so only a subscription
registered while disconnected (after the disconnect) is retained across the
next connect: for any state with no socket, subscribing a callback to a
channel and then connecting makes a message on that channel reach exactly
that callback, without manual re-subscription. -/
theorem C2_subscription_made_while_disconnected_survives_connect (s : WSState)
    (channel : String) (cb : CallbackId) (h : s.socket = none) :
    WebSocketService.deliver
      (WebSocketService.connect (WebSocketService.subscribe s channel cb)) channel = [cb] := by
  simp [WebSocketService.deliver, WebSocketService.connect, WebSocketService.subscribe,
    mapGet_mapSet_self]

/-- C2 witness: from the freshly constructed service (no socket), subscribing
callback 2 to chat-2 and then connecting delivers a chat-2 message to
callback 2. -/
theorem C2_subscription_made_while_disconnected_survives_connect_witness :
    WebSocketService.deliver
      (WebSocketService.connect (WebSocketService.subscribe ⟨none, []⟩ "chat-2" 2))
      "chat-2" = [2] :=
  C2_subscription_made_while_disconnected_survives_connect ⟨none, []⟩ "chat-2" 2 rfl

/-- C3: CustomAuthService.refreshToken with a refresh token the server
rejects (here with status 400, as for a revoked token) propagates the raw
HTTP error and leaves the token store unchanged — the stale pair
(A0, R0) is still stored, and nothing is cleared, contrary to the claim
that the store afterwards holds no tokens. -/
theorem C3_failed_refresh_leaves_stale_token_pair :
    CustomAuthService.refreshToken
      (Except.error { status := some 400, message := "invalid_grant" })
      { accessToken := some "A0", refreshTokenValue := some "R0" } =
    (Except.error { status := some 400, message := "invalid_grant" },
     { accessToken := some "A0", refreshTokenValue := some "R0" }) := rfl

/-- C4 counterexample: the firebase backend kind of getById is an
unimplemented stub: on any collection and identifier — in particular one
the backend would report as not-found — it throws instead of returning the
absent value, refuting the claim for that backend kind. -/
theorem C4_firestore_getById_always_throws :
    FirestoreService.getById "posts" "missing-id" =
      Except.error "Firestore getById not implemented" ∧
    FirestoreService.getById "posts" "missing-id" ≠ Except.ok none :=
  ⟨rfl, fun h => Except.noConfusion h⟩

/-- C4 amended: for the REST custom backend, getById returns the data on
success, returns the explicit absent value (null) when the backend reports
404, and rethrows every other failure; the document-database backend kind
is an unimplemented stub whose getById always throws. -/
theorem C4_getById_absent_only_on_404_custom_kind (d : String) (msg : String)
    (e : HttpError) (h : e.status ≠ some 404) :
    CustomDatabaseService.getById (Except.ok d) = Except.ok (some d) ∧
    CustomDatabaseService.getById (Except.error { status := some 404, message := msg }) =
      Except.ok none ∧
    CustomDatabaseService.getById (Except.error e) = Except.error e ∧
    (∀ c i, FirestoreService.getById c i =
      Except.error "Firestore getById not implemented") := by
  refine ⟨rfl, ?_, ?_, fun c i => rfl⟩
  · simp [CustomDatabaseService.getById]
  · simp [CustomDatabaseService.getById, h]

/-- C4 witness: instantiated at a 500 server error. -/
theorem C4_getById_absent_only_on_404_custom_kind_witness :
    CustomDatabaseService.getById
        (Except.error { status := some 500, message := "server error" }) =
      Except.error { status := some 500, message := "server error" } :=
  (C4_getById_absent_only_on_404_custom_kind "item" "not found"
    { status := some 500, message := "server error" } (by decide)).2.2.1

/-- C5: the refresh-and-retry interceptor re-issues a request at most once:
a request already carrying the retried marker that receives another 401 has
the failure surfaced to the caller as-is, with no refresh call and no
re-issue and the token store untouched; and whenever the interceptor does
re-issue a request, the re-issued config carries the retried marker, so its
own 401 cannot be retried again. -/
theorem C5_request_retried_at_most_once :
    (∀ (cfg : RequestConfig) (err : HttpError) (st : TokenStore)
        (refreshResp : Except HttpError TokenPair)
        (retryResp : RequestConfig → Except HttpError String),
      cfg.retryFlag = true → err.status = some 401 →
      interceptResponseError cfg err st refreshResp retryResp =
        { result := Except.error err, store := st, refreshCalls := 0, retriedWith := none }) ∧
    (∀ (cfg : RequestConfig) (err : HttpError) (st : TokenStore)
        (refreshResp : Except HttpError TokenPair)
        (retryResp : RequestConfig → Except HttpError String) (cfg2 : RequestConfig),
      (interceptResponseError cfg err st refreshResp retryResp).retriedWith = some cfg2 →
      cfg2.retryFlag = true) := by
  constructor
  · intro cfg err st refreshResp retryResp hflag h401
    simp [interceptResponseError, hflag]
  · intro cfg err st refreshResp retryResp cfg2 h
    unfold interceptResponseError at h
    split at h
    · split at h
      · split at h
        · simp only [Option.some.injEq] at h
          rw [← h]
        · simp at h
      · simp at h
    · simp at h

/-- C5 witness: a request already marked as retried that receives a second
401 gets exactly the original error back, with zero refresh calls and no
re-issue; and the config the interceptor re-issues for a fresh request is
marked as retried. -/
theorem C5_request_retried_at_most_once_witness :
    (interceptResponseError { retryFlag := true, authHeader := some "Bearer A0" }
        { status := some 401, message := "unauthorized" }
        { accessToken := some "A0", refreshTokenValue := some "R0" }
        (Except.ok { accessToken := "A1", refreshToken := "R1" })
        (fun _ => Except.ok "body") =
      { result := Except.error { status := some 401, message := "unauthorized" },
        store := { accessToken := some "A0", refreshTokenValue := some "R0" },
        refreshCalls := 0, retriedWith := none }) ∧
    ({ retryFlag := true, authHeader := some "Bearer A1" } : RequestConfig).retryFlag = true :=
  ⟨C5_request_retried_at_most_once.1 _ _ _ _ _ rfl rfl,
   C5_request_retried_at_most_once.2 { retryFlag := false, authHeader := some "Bearer A0" }
     { status := some 401, message := "unauthorized" }
     { accessToken := some "A0", refreshTokenValue := some "R0" }
     (Except.ok { accessToken := "A1", refreshToken := "R1" })
     (fun _ => Except.ok "body") _ rfl⟩

/-- C6: CustomAuthService.verifyOTP updates the token store atomically: on a
successful response both stored tokens are set together to the values of the
response, and on any failure the response error propagates and neither
stored token is modified — no partially updated store is ever produced. -/
theorem C6_verifyOTP_updates_store_atomically (s : TokenStore) :
    (∀ r, CustomAuthService.verifyOTP (Except.ok r) s =
      (Except.ok r,
       { accessToken := some r.accessToken, refreshTokenValue := some r.refreshToken })) ∧
    (∀ e, CustomAuthService.verifyOTP (Except.error e) s = (Except.error e, s)) :=
  ⟨fun r => rfl, fun e => rfl⟩

/-- C7: subscribing to channel C with callback 1 and then with callback 2
while connected leaves exactly one callback (the last) in the subscription
registry, but a message on C is delivered as [2, 1, 2]: the catch-all
dispatch invokes callback 2, after which the per-event socket listeners
registered by both subscribe calls invoke callback 1 and callback 2 again —
so the first callback still receives the message, refuting the claim that
only the last subscriber receives messages. -/
theorem C7_old_callback_still_fires_after_resubscribe :
    mapGet (WebSocketService.subscribe
      (WebSocketService.subscribe (WebSocketService.connect ⟨none, []⟩) "C" 1)
      "C" 2).callbacks "C" = some 2 ∧
    WebSocketService.deliver
      (WebSocketService.subscribe
        (WebSocketService.subscribe (WebSocketService.connect ⟨none, []⟩) "C" 1)
        "C" 2) "C" = [2, 1, 2] := by decide

/-- C8: send on a service whose socket is null fails immediately with the
not-connected error, performs zero transport calls, and leaves the state —
including any queued callbacks — unchanged: nothing is queued for later
delivery. -/
theorem C8_send_while_disconnected_fails_without_transport (s : WSState)
    (channel : String) (ackError : Option String) (h : s.socket = none) :
    WebSocketService.send s channel ackError =
      (Except.error SendError.notConnected, s, 0) := by
  obtain ⟨sk, cbs⟩ := s
  cases h
  rfl

/-- C8 witness: sending on a disconnected service with a pending
subscription fails with the not-connected error and zero transport calls. -/
theorem C8_send_while_disconnected_fails_without_transport_witness :
    WebSocketService.send ⟨none, [("chat-1", 1)]⟩ "chat-1" none =
      (Except.error SendError.notConnected, ⟨none, [("chat-1", 1)]⟩, 0) :=
  C8_send_while_disconnected_fails_without_transport ⟨none, [("chat-1", 1)]⟩ "chat-1" none rfl

/-- C9: when the configured backend kind is firebase and the firebase
configuration is absent, the first access to the singleton factory throws
immediately with the missing-configuration error, and the module-level
singleton stays null — no backend instance is constructed or stored. -/
theorem C9_firebase_kind_without_config_fails_fast (config : AppConfig)
    (hkind : config.backendType = "firebase") (hmissing : config.firebase = none) :
    getBackendService config none =
      (Except.error "Firebase configuration is missing", none) := by
  simp [getBackendService, hkind, hmissing]

/-- C9 witness: a concrete configuration selecting the firebase kind with no
firebase parameters. -/
theorem C9_firebase_kind_without_config_fails_fast_witness :
    getBackendService
      { backendType := "firebase", firebase := none,
        apiBaseUrl := "https://api.example.com", wsUrl := "wss://ws.example.com" } none =
      (Except.error "Firebase configuration is missing", none) :=
  C9_firebase_kind_without_config_fails_fast
    { backendType := "firebase", firebase := none,
      apiBaseUrl := "https://api.example.com", wsUrl := "wss://ws.example.com" } rfl rfl

/-- C10: every log context emitted by AuthService.requestOTP or
AuthService.verifyOTP either carries no phone value or carries exactly
maskPhone of the phone; maskPhone is four asterisks when the phone has at
most 4 characters and otherwise the first two characters, four asterisks,
and the last two characters — so every character of the logged phone value
is an asterisk or one of the first two or last two characters of the
phone. -/
theorem C10_logged_phone_is_always_masked (phone : List Char)
    (requestFails verifyFails : Bool) (userId : String) (ctx : LogContext)
    (hmem : ctx ∈ requestOTPLogContexts phone requestFails ∨
            ctx ∈ verifyOTPLogContexts phone verifyFails userId) :
    (∀ p, ctx.phoneField = some p → p = maskPhone phone) ∧
    (phone.length ≤ 4 → maskPhone phone = ['*', '*', '*', '*']) ∧
    (4 < phone.length →
      maskPhone phone =
        phone.take 2 ++ ['*', '*', '*', '*'] ++ phone.drop (phone.length - 2)) ∧
    (∀ c ∈ maskPhone phone,
      c = '*' ∨ c ∈ phone.take 2 ∨ c ∈ phone.drop (phone.length - 2)) := by
  refine ⟨?_, ?_, ?_, ?_⟩
  · intro p hp
    have hfield : ctx.phoneField = none ∨ ctx.phoneField = some (maskPhone phone) := by
      have hcases : ctx = { phoneField := some (maskPhone phone), userIdField := none } ∨
          ctx = { phoneField := none, userIdField := none } ∨
          ctx = { phoneField := none, userIdField := some userId } := by
        rcases hmem with h | h
        · cases requestFails
          · simp [requestOTPLogContexts] at h
            tauto
          · simp [requestOTPLogContexts] at h
            tauto
        · cases verifyFails
          · simp [verifyOTPLogContexts] at h
            tauto
          · simp [verifyOTPLogContexts] at h
            tauto
      rcases hcases with h | h | h <;> subst h <;> simp
    rcases hfield with hf | hf
    · rw [hf] at hp; cases hp
    · rw [hf] at hp
      exact (Option.some_inj.mp hp).symm
  · intro h
    simp [maskPhone, h]
  · intro h
    have h2 : ¬ phone.length ≤ 4 := by omega
    simp [maskPhone, h2]
  · intro c hc
    by_cases h : phone.length ≤ 4
    · simp only [maskPhone, if_pos h] at hc
      simp only [List.mem_cons, List.not_mem_nil, or_false] at hc
      tauto
    · simp only [maskPhone, if_neg h] at hc
      simp only [List.mem_append, List.mem_cons, List.not_mem_nil, or_false] at hc
      tauto

/-- C10 witness: a 3-character phone is logged as four asterisks. -/
theorem C10_logged_phone_is_always_masked_witness :
    maskPhone ['9', '8', '7'] = ['*', '*', '*', '*'] :=
  (C10_logged_phone_is_always_masked ['9', '8', '7'] true true "u1"
    { phoneField := some (maskPhone ['9', '8', '7']), userIdField := none }
    (Or.inl (by simp [requestOTPLogContexts]))).2.1 (by decide)
